import Mathlib

/-!
# Verification of the iSafariNetworkGlobal role / auth / cart core

Shallow embedding of the repository's role-protection middleware
(`preventRoleModification`, `stripRoleFields`, `validateRole` from the
role-protection middleware module), the persistence-level CHECK constraints
(the `auth_provider` migration), the OAuth account-linking step, the JWT
issue/verify round trip, and the cart `updateQuantity` logic from
`src/contexts/CartContext.jsx`.

JavaScript request values are modelled as `Option String` (`none` =
absent/undefined); JS truthiness of such a value is "present and non-empty".
`parseInt` is modelled for decimal inputs (leading whitespace, optional sign,
leading digits; `none` plays the role of `NaN`, which compares unequal to
everything under `===`).
-/

/-- JS truthiness of an optional string field: truthy iff present and non-empty. -/
def jsTruthy (v : Option String) : Bool :=
  match v with
  | some s => s != ""
  | none => false

/-- JS `a || b` on optional string fields: yields `a` when `a` is truthy, else `b`. -/
def jsOrS (a b : Option String) : Option String :=
  if jsTruthy a then a else b

/-- Digits accumulated left to right in base 10. -/
def digitsToNat (ds : List Char) : Nat :=
  ds.foldl (fun acc c => acc * 10 + (c.toNat - '0'.toNat)) 0

/-- JS `parseInt` on a string, decimal radix (the `0x` prefix form is not used by
this codebase's route/body ids): skip leading whitespace, optional sign, then the
longest leading digit run; `none` models `NaN`. -/
def parseIntJS (s : String) : Option Int :=
  let cs := s.data.dropWhile Char.isWhitespace
  match cs with
  | '-' :: rest =>
      let ds := rest.takeWhile Char.isDigit
      if ds.isEmpty then none else some (-(digitsToNat ds : Int))
  | '+' :: rest =>
      let ds := rest.takeWhile Char.isDigit
      if ds.isEmpty then none else some ((digitsToNat ds : Int))
  | _ =>
      let ds := cs.takeWhile Char.isDigit
      if ds.isEmpty then none else some ((digitsToNat ds : Int))

/-- JS `parseInt` applied to a possibly-undefined value (`parseInt(undefined)` is `NaN`). -/
def parseIntOpt (v : Option String) : Option Int :=
  match v with
  | some s => parseIntJS s
  | none => none

/-- JS `===` between two `parseInt` results: `NaN` (here `none`) is equal to nothing,
itself included. -/
def jsStrictEqInt (a b : Option Int) : Bool :=
  match a, b with
  | some x, some y => x == y
  | _, _ => false

/-- The authenticated user attached to the request by the auth middleware
(`req.user`): its id and its `user_type` (the stored role). -/
structure RPUser where
  id : Nat
  user_type : String
deriving DecidableEq

/-- The request body fields the role middleware looks at (`user_type`, `userType`,
`userId`), plus the remaining body fields, kept abstract as a key/value list. -/
structure ReqBody where
  user_type : Option String
  userType : Option String
  userId : Option String
  rest : List (String × String)
deriving DecidableEq

/-- The route params the role middleware looks at (`req.params.id`, `req.params.userId`). -/
structure ReqParams where
  id : Option String
  userId : Option String
deriving DecidableEq

/-- Params object with neither `id` nor `userId` set. -/
def noParams : ReqParams := { id := none, userId := none }

/-- Outcome of a middleware invocation: `next()` was called, or the middleware
responded 401 / 403 (with its machine-readable `code`) / 500 (the catch block). -/
inductive RoleDecision where
  | next
  | unauthorized
  | forbidden (code : String)
  | serverError
deriving DecidableEq

/-- The `preventRoleModification` middleware. Field accesses on an absent
`req.body` throw and land in the catch block (500). Mirrors the source: the
role-field gate via `||` and truthiness, the 401 check, the admin bypass, the
own-target branch comparing the attempted value with the actor's role, and the
other-target branch. -/
def preventRoleModification (user? : Option RPUser) (params : ReqParams)
    (body? : Option ReqBody) : RoleDecision :=
  match body? with
  | none => .serverError
  | some body =>
    let attemptedRoleChange := jsOrS body.user_type body.userType
    if jsTruthy attemptedRoleChange then
      match user? with
      | none => .unauthorized
      | some currentUser =>
        if currentUser.user_type == "admin" then .next
        else
          let targetUserId := jsOrS (jsOrS params.id params.userId) body.userId
          let sameId := jsStrictEqInt (parseIntOpt targetUserId)
            (some (Int.ofNat currentUser.id))
          if (!jsTruthy targetUserId || sameId)
              && (attemptedRoleChange != some currentUser.user_type) then
            .forbidden "ROLE_MODIFICATION_FORBIDDEN"
          else if jsTruthy targetUserId && !sameId then
            .forbidden "ADMIN_REQUIRED"
          else
            .next
    else .next

/-- `currentUser && currentUser.user_type === 'admin'`. -/
def isAdminUser (user? : Option RPUser) : Bool :=
  match user? with
  | some u => u.user_type == "admin"
  | none => false

/-- `delete req.body.user_type; delete req.body.userType`. -/
def clearRoleFields (b : ReqBody) : ReqBody :=
  { b with user_type := none, userType := none }

/-- The `stripRoleFields` middleware: admins pass through untouched; for anyone
else (an absent `req.user` included) the role fields are deleted from the body
when a body is present, and `next()` is always called. -/
def stripRoleFields (user? : Option RPUser) (body? : Option ReqBody) :
    RoleDecision × Option ReqBody :=
  if isAdminUser user? then (.next, body?)
  else (.next, body?.map clearRoleFields)

/-- A persisted user row (the columns the claims are about). -/
structure StoredUser where
  id : Nat
  email : String
  password : Option String
  google_id : Option String
  user_type : String
  auth_provider : String
deriving DecidableEq

/-- The users table. -/
abbrev UserStore := List StoredUser

/-- Look up a user row by id. -/
def lookupUser (store : UserStore) (i : Nat) : Option StoredUser :=
  store.find? (fun u => u.id == i)

/-- Stored role of the row with the given id, when present. -/
def lookupRole (store : UserStore) (i : Nat) : Option String :=
  (lookupUser store i).map StoredUser.user_type

/-- A role-mutating endpoint behind `preventRoleModification`: the downstream
handler runs only when the middleware called `next()`; any denial leaves the
store untouched because the handler is never reached. -/
def guardedUpdate (user? : Option RPUser) (params : ReqParams)
    (body? : Option ReqBody) (handler : UserStore → UserStore)
    (store : UserStore) : UserStore :=
  match preventRoleModification user? params body? with
  | .next => handler store
  | _ => store

/-- The middleware module's `validateRole` helper: membership of the value in
the valid-roles list. -/
def validateRole (role : String) : Bool :=
  ["traveler", "service_provider", "admin"].contains role

/-- The migration's `users_user_type_check` CHECK constraint:
`user_type IN ('traveler', 'service_provider', 'admin')`. -/
def users_user_type_check (u : StoredUser) : Bool :=
  ["traveler", "service_provider", "admin"].contains u.user_type

/-- The migration's CHECK constraint on `auth_provider`:
`auth_provider IN ('email', 'google', 'both')`. -/
def users_auth_provider_check (u : StoredUser) : Bool :=
  ["email", "google", "both"].contains u.auth_provider

/-- Database-level failure of an INSERT. -/
inductive SqlError where
  | checkViolation
deriving DecidableEq

/-- INSERT into `users` through the table's CHECK constraints: a row violating
`users_user_type_check` or the `auth_provider` check is rejected with a
constraint violation and nothing is stored; otherwise the row is appended. -/
def insertUser (store : UserStore) (u : StoredUser) : Except SqlError UserStore :=
  if !users_user_type_check u then .error .checkViolation
  else if !users_auth_provider_check u then .error .checkViolation
  else .ok (store ++ [u])

/-- Whether every persisted row satisfies the role constraint. -/
def rolesValid (store : UserStore) : Prop :=
  ∀ u ∈ store, users_user_type_check u = true

/-- Modelled from the spec: the Account Resolver's OAuth account-linking step
(the backend Google-auth route is not among the sources; this follows §4.2
case 2 and the linking UPDATE, `SET google_id = $1, auth_provider = 'both'`,
exercised by the repository's property tests): on the row matching the email
that has no external identity id yet, attach the external identity id and set
`auth_provider` to `both`, leaving every other column of every row unchanged. -/
def linkGoogleAccount (store : UserStore) (email googleId : String) : UserStore :=
  store.map (fun u =>
    if u.email == email && u.google_id == none then
      { u with google_id := some googleId, auth_provider := "both" }
    else u)

/-- JWT payload as signed by the backend: `{ id, email, userType }` plus the
expiry timestamp (seconds). -/
structure TokenClaims where
  id : Nat
  email : String
  userType : String
  exp : Nat
deriving DecidableEq

/-- A signed token: the claims plus the signature. The HMAC is abstracted as
the signing secret itself — verification with a secret succeeds exactly when
the token was signed with that same secret. -/
structure SignedToken where
  claims : TokenClaims
  sig : String
deriving DecidableEq

/-- Token verification failures. -/
inductive TokenError where
  | EXPIRED
  | INVALID_SIGNATURE
deriving DecidableEq

/-- The default token validity: 7 days, in seconds (`JWT_EXPIRES_IN = 7d`). -/
def jwtExpiresInSeconds : Nat := 7 * 24 * 60 * 60

/-- Modelled from the spec: the Token Issuer's `issue` (the backend
`generateToken` in the auth routes is not among the sources; this follows §4.3
and the `jwt.sign({ id, email, userType }, secret, expiresIn)` calls in the
repository's property tests): sign the `{ id, email, userType }` snapshot of
the record with the secret and the fixed expiry. -/
def issueToken (u : StoredUser) (secret : String) (now : Nat) : SignedToken :=
  { claims := { id := u.id, email := u.email, userType := u.user_type,
                exp := now + jwtExpiresInSeconds },
    sig := secret }

/-- Modelled from the spec: the Token Issuer's `verify` (§4.3, matching
`jwt.verify(token, secret)` in the repository's property tests): reject a
signature made with a different secret, reject an expired token, otherwise
return the embedded claims. -/
def verifyToken (t : SignedToken) (secret : String) (now : Nat) :
    Except TokenError TokenClaims :=
  if t.sig != secret then .error .INVALID_SIGNATURE
  else if t.claims.exp ≤ now then .error .EXPIRED
  else .ok t.claims

/-- A cart line item row: its own id, the owning user, the referenced service,
and the quantity. -/
structure CartLineItem where
  id : Nat
  owner_id : Nat
  service_id : Nat
  quantity : Int
deriving DecidableEq

/-- A write against the cart store: the DELETE issued by `removeFromCart`, or
the quantity-update issued by `updateCartItem`. -/
inductive CartWrite where
  | removeItem (ownerId itemId : Nat)
  | setQuantity (ownerId itemId : Nat) (q : Int)
deriving DecidableEq

/-- The writes `removeFromCart(cartItemId)` issues (from `CartContext.jsx`):
one removal. -/
def removeFromCartWrites (ownerId itemId : Nat) : List CartWrite :=
  [.removeItem ownerId itemId]

/-- The writes `updateQuantity(cartItemId, newQuantity)` issues (from
`CartContext.jsx`): `newQuantity <= 0` delegates to `removeFromCart` and
returns; otherwise a single `updateCartItem` call. -/
def updateQuantityWrites (ownerId itemId : Nat) (newQuantity : Int) :
    List CartWrite :=
  if newQuantity ≤ 0 then removeFromCartWrites ownerId itemId
  else [.setQuantity ownerId itemId newQuantity]

/-- Modelled from the spec: the server-side Cart Store semantics of §4.4 (the
backend cart routes are not among the sources): removal deletes the owner's
line item with that id (a no-op when absent); a quantity update overwrites the
stored quantity of the owner's line item with that id. -/
def applyCartWrite (cart : List CartLineItem) : CartWrite → List CartLineItem
  | .removeItem o i => cart.filter (fun li => !(li.owner_id == o && li.id == i))
  | .setQuantity o i q =>
      cart.map (fun li =>
        if li.owner_id == o && li.id == i then { li with quantity := q } else li)

/-- Apply a sequence of cart writes in order. -/
def applyCartWrites (cart : List CartLineItem) (ws : List CartWrite) :
    List CartLineItem :=
  ws.foldl applyCartWrite cart

/-- Modelled from the spec: `get(ownerId)` returns the owner's line items (§4.4). -/
def cartGet (cart : List CartLineItem) (ownerId : Nat) : List CartLineItem :=
  cart.filter (fun li => li.owner_id == ownerId)

/-! ## Theorems -/

/-- C3: creating a user record with a role value outside
{traveler, service_provider, admin} is rejected at the persistence boundary
with a constraint violation and never stored, and every store whose records
satisfy the role constraint still satisfies it after any successful insert. -/
theorem roleConstraint_enforced :
    (∀ (store : UserStore) (u : StoredUser), validateRole u.user_type = false →
      insertUser store u = .error .checkViolation) ∧
    (∀ (store : UserStore) (u : StoredUser) (store' : UserStore),
      rolesValid store → insertUser store u = .ok store' → rolesValid store') := by
  constructor
  · intro store u h
    have hc : users_user_type_check u = false := h
    simp [insertUser, hc]
  · intro store u store' hvalid hok
    have hc : users_user_type_check u = true := by
      by_contra hne
      have hc' : users_user_type_check u = false := by
        revert hne
        cases users_user_type_check u <;> simp
      simp [insertUser, hc'] at hok
    by_cases ha : users_auth_provider_check u = true
    · have hstore : store' = store ++ [u] := by
        simp [insertUser, hc, ha] at hok
        exact hok.symm
      subst hstore
      intro w hw
      rcases List.mem_append.mp hw with hw | hw
      · exact hvalid w hw
      · simp at hw
        subst hw
        exact hc
    · have ha' : users_auth_provider_check u = false := by
        revert ha
        cases users_auth_provider_check u <;> simp
      simp [insertUser, hc, ha'] at hok

/-- Witness for C3 at concrete inputs: an invalid role is rejected on the empty
store, and a valid insert preserves the role invariant. -/
theorem roleConstraint_enforced_witness :
    insertUser [] ⟨1, "a@x.com", none, none, "superuser", "email"⟩
        = .error .checkViolation ∧
    rolesValid ([] ++ [(⟨2, "b@x.com", none, none, "traveler", "email"⟩ : StoredUser)]) :=
  ⟨roleConstraint_enforced.1 [] ⟨1, "a@x.com", none, none, "superuser", "email"⟩
      (by decide),
   roleConstraint_enforced.2 [] (⟨2, "b@x.com", none, none, "traveler", "email"⟩ : StoredUser)
      ([] ++ [(⟨2, "b@x.com", none, none, "traveler", "email"⟩ : StoredUser)])
      (by intro u hu; simp at hu) rfl⟩

/-- C4: a record with this email, a password hash, and no external identity id
is, after OAuth account-linking, present with `auth_provider = "both"` and the
new external id, while its id, email, role, and password hash are unchanged. -/
theorem oauthLinking_preserves (store : UserStore) (email gid : String)
    (u : StoredUser) (hu : u ∈ store) (he : u.email = email)
    (hg : u.google_id = none) (_hp : u.password.isSome = true) :
    ∃ u' ∈ linkGoogleAccount store email gid,
      u'.id = u.id ∧ u'.email = u.email ∧ u'.auth_provider = "both" ∧
      u'.google_id = some gid ∧ u'.user_type = u.user_type ∧
      u'.password = u.password := by
  refine ⟨{ u with google_id := some gid, auth_provider := "both" }, ?_, ?_⟩
  · have : ({ u with google_id := some gid, auth_provider := "both" } : StoredUser)
        = (fun w : StoredUser =>
            if w.email == email && w.google_id == none then
              { w with google_id := some gid, auth_provider := "both" }
            else w) u := by
      simp [he, hg]
    rw [this]
    exact List.mem_map_of_mem _ hu
  · simp

/-- Witness for C4: linking a concrete email/password account. -/
theorem oauthLinking_preserves_witness :
    ∃ u' ∈ linkGoogleAccount
        [⟨1, "a@x.com", some "hash", none, "traveler", "email"⟩] "a@x.com" "g123",
      u'.id = 1 ∧ u'.email = "a@x.com" ∧ u'.auth_provider = "both" ∧
      u'.google_id = some "g123" ∧ u'.user_type = "traveler" ∧
      u'.password = some "hash" :=
  oauthLinking_preserves
    [⟨1, "a@x.com", some "hash", none, "traveler", "email"⟩] "a@x.com" "g123"
    ⟨1, "a@x.com", some "hash", none, "traveler", "email"⟩
    (by simp) rfl rfl (by decide)

/-- C5: verifying a token produced by `issue` with the same secret, at any time
inside the validity window, succeeds and yields claims whose id, email, and
role are those of the record at issuance time. -/
theorem tokenRoundTrip (u : StoredUser) (secret : String) (issuedAt now : Nat)
    (h : now < issuedAt + jwtExpiresInSeconds) :
    verifyToken (issueToken u secret issuedAt) secret now =
      .ok { id := u.id, email := u.email, userType := u.user_type,
            exp := issuedAt + jwtExpiresInSeconds } := by
  simp [verifyToken, issueToken, Nat.not_le.mpr h]

/-- Witness for C5: a concrete record, secret, and verification instant. -/
theorem tokenRoundTrip_witness :
    verifyToken
      (issueToken ⟨1, "a@x.com", some "hash", none, "traveler", "email"⟩ "s3cret" 0)
      "s3cret" 3600
      = .ok { id := 1, email := "a@x.com", userType := "traveler",
              exp := 0 + jwtExpiresInSeconds } :=
  tokenRoundTrip ⟨1, "a@x.com", some "hash", none, "traveler", "email"⟩
    "s3cret" 0 3600 (by decide)

/-- C6: for a non-admin (or unauthenticated) actor, `stripRoleFields` deletes
both role fields from the body and lets the request through, leaving the other
body fields unchanged; for an admin actor, the body is untouched. -/
theorem stripRoleFields_behavior (user? : Option RPUser) (body : ReqBody) :
    (isAdminUser user? = false →
      stripRoleFields user? (some body) = (.next, some (clearRoleFields body)) ∧
      (clearRoleFields body).user_type = none ∧
      (clearRoleFields body).userType = none ∧
      (clearRoleFields body).userId = body.userId ∧
      (clearRoleFields body).rest = body.rest) ∧
    (isAdminUser user? = true →
      stripRoleFields user? (some body) = (.next, some body)) := by
  constructor
  · intro h
    refine ⟨?_, rfl, rfl, rfl, rfl⟩
    simp [stripRoleFields, h]
  · intro h
    simp [stripRoleFields, h]

/-- Witness for C6: a concrete unauthenticated request with both role fields
set and one unrelated field. -/
theorem stripRoleFields_behavior_witness :
    stripRoleFields none
        (some ⟨some "admin", some "admin", some "5", [("first_name", "Jo")]⟩)
      = (.next, some (clearRoleFields
          ⟨some "admin", some "admin", some "5", [("first_name", "Jo")]⟩)) ∧
    (clearRoleFields
        ⟨some "admin", some "admin", some "5", [("first_name", "Jo")]⟩).user_type
      = none ∧
    (clearRoleFields
        ⟨some "admin", some "admin", some "5", [("first_name", "Jo")]⟩).userType
      = none ∧
    (clearRoleFields
        ⟨some "admin", some "admin", some "5", [("first_name", "Jo")]⟩).userId
      = some "5" ∧
    (clearRoleFields
        ⟨some "admin", some "admin", some "5", [("first_name", "Jo")]⟩).rest
      = [("first_name", "Jo")] :=
  (stripRoleFields_behavior none
      ⟨some "admin", some "admin", some "5", [("first_name", "Jo")]⟩).1 rfl

/-- C9: `stripRoleFields` never denies: it always calls `next()`; with no
authenticated user it behaves exactly as for any non-admin user, deleting the
role fields from a present body. -/
theorem stripRoleFields_total :
    (∀ (user? : Option RPUser) (body? : Option ReqBody),
      (stripRoleFields user? body?).1 = .next) ∧
    (∀ (u : RPUser) (body? : Option ReqBody), u.user_type ≠ "admin" →
      stripRoleFields none body? = stripRoleFields (some u) body?) ∧
    (∀ b : ReqBody,
      (stripRoleFields none (some b)).2 = some (clearRoleFields b)) := by
  refine ⟨?_, ?_, ?_⟩
  · intro user? body?
    by_cases h : isAdminUser user? = true
    · simp [stripRoleFields, h]
    · simp only [Bool.not_eq_true] at h
      simp [stripRoleFields, h]
  · intro u body? h
    have h1 : isAdminUser none = false := rfl
    have h2 : isAdminUser (some u) = false := by
      simp [isAdminUser, h]
    simp [stripRoleFields, h1, h2]
  · intro b
    simp [stripRoleFields, isAdminUser]

/-- Witness for C9: with no user attached, the output equals that for a
concrete non-admin user. -/
theorem stripRoleFields_total_witness :
    stripRoleFields none (some ⟨some "admin", none, none, []⟩)
      = stripRoleFields (some ⟨7, "traveler"⟩)
          (some ⟨some "admin", none, none, []⟩) :=
  stripRoleFields_total.2.1 ⟨7, "traveler"⟩
    (some ⟨some "admin", none, none, []⟩) (by decide)

/-- C7: `updateQuantity` with a non-positive quantity issues exactly the writes
of `remove` (no quantity-update write), after which the line item is absent
from the owner's `get`; with a positive quantity, the stored quantity of that
line item is overwritten. -/
theorem updateQuantity_remove_semantics (ownerId itemId : Nat) (q : Int)
    (cart : List CartLineItem) :
    (q ≤ 0 →
      updateQuantityWrites ownerId itemId q = removeFromCartWrites ownerId itemId ∧
      (∀ w ∈ updateQuantityWrites ownerId itemId q,
        ∀ o i qq, w ≠ CartWrite.setQuantity o i qq) ∧
      (∀ li ∈ cartGet
          (applyCartWrites cart (updateQuantityWrites ownerId itemId q)) ownerId,
        li.id ≠ itemId)) ∧
    (0 < q →
      ∀ li ∈ applyCartWrites cart (updateQuantityWrites ownerId itemId q),
        li.owner_id = ownerId → li.id = itemId → li.quantity = q) := by
  constructor
  · intro hq
    have hw : updateQuantityWrites ownerId itemId q
        = removeFromCartWrites ownerId itemId := by
      simp [updateQuantityWrites, hq]
    refine ⟨hw, ?_, ?_⟩
    · intro w hwmem o i qq
      rw [hw] at hwmem
      simp [removeFromCartWrites] at hwmem
      subst hwmem
      intro hcontra
      exact CartWrite.noConfusion hcontra
    · intro li hli
      rw [hw] at hli
      unfold applyCartWrites removeFromCartWrites at hli
      simp only [List.foldl_cons, List.foldl_nil] at hli
      unfold applyCartWrite cartGet at hli
      rw [List.mem_filter] at hli
      obtain ⟨hmem, hown⟩ := hli
      rw [List.mem_filter] at hmem
      obtain ⟨_, hkeep⟩ := hmem
      intro hid
      simp [hid, hown] at hkeep
  · intro hq li hli hown hid
    have hq' : ¬ q ≤ 0 := by omega
    simp [updateQuantityWrites, hq', applyCartWrites, applyCartWrite] at hli
    rcases hli with ⟨x, hx, hfx⟩
    by_cases hc : x.owner_id = ownerId ∧ x.id = itemId
    · rw [if_pos hc] at hfx
      rw [← hfx]
    · rw [if_neg hc] at hfx
      subst hfx
      exact absurd ⟨hown, hid⟩ hc

/-- Witness for C7: updating to 0 removes the item, updating to 5 overwrites
the quantity, on a concrete one-item cart. -/
theorem updateQuantity_remove_semantics_witness :
    (updateQuantityWrites 1 10 0 = removeFromCartWrites 1 10 ∧
      (∀ w ∈ updateQuantityWrites 1 10 0,
        ∀ o i qq, w ≠ CartWrite.setQuantity o i qq) ∧
      (∀ li ∈ cartGet
          (applyCartWrites [⟨10, 1, 3, 2⟩] (updateQuantityWrites 1 10 0)) 1,
        li.id ≠ 10)) ∧
    (∀ li ∈ applyCartWrites [⟨10, 1, 3, 2⟩] (updateQuantityWrites 1 10 5),
      li.owner_id = 1 → li.id = 10 → li.quantity = 5) :=
  ⟨(updateQuantity_remove_semantics 1 10 0 [⟨10, 1, 3, 2⟩]).1 (by decide),
   (updateQuantity_remove_semantics 1 10 5 [⟨10, 1, 3, 2⟩]).2 (by decide)⟩

/-- A truthy optional string is a present non-empty string. -/
theorem jsTruthy_some_of_ne {v : String} (hv : v ≠ "") : jsTruthy (some v) = true := by
  simp only [jsTruthy, bne_iff_ne, ne_eq]
  exact hv

/-- `!=` on equal-shaped options reduces to `!=` on the contents. -/
theorem some_bne_some (a b : String) : (some a != some b) = (a != b) := rfl

/-- For an authenticated non-admin actor with a truthy role value `v` in the
body, `preventRoleModification` reduces to the two target-id checks. -/
theorem prm_nonAdmin_characterization (u : RPUser) (params : ReqParams)
    (body : ReqBody) (v : String)
    (hadmin : u.user_type ≠ "admin")
    (hatt : jsOrS body.user_type body.userType = some v) (hv : v ≠ "") :
    preventRoleModification (some u) params (some body) =
      (if (!jsTruthy (jsOrS (jsOrS params.id params.userId) body.userId)
            || jsStrictEqInt
                (parseIntOpt (jsOrS (jsOrS params.id params.userId) body.userId))
                (some (Int.ofNat u.id)))
          && (v != u.user_type) then
        .forbidden "ROLE_MODIFICATION_FORBIDDEN"
      else if jsTruthy (jsOrS (jsOrS params.id params.userId) body.userId)
          && !jsStrictEqInt
              (parseIntOpt (jsOrS (jsOrS params.id params.userId) body.userId))
              (some (Int.ofNat u.id)) then
        .forbidden "ADMIN_REQUIRED"
      else .next) := by
  have htruthy : jsTruthy (jsOrS body.user_type body.userType) = true := by
    rw [hatt]
    exact jsTruthy_some_of_ne hv
  have hadminb : (u.user_type == "admin") = false := by
    exact beq_eq_false_iff_ne.mpr hadmin
  simp only [preventRoleModification, hatt, htruthy, hadminb, some_bne_some,
    jsTruthy_some_of_ne hv, if_true, Bool.false_eq_true, if_false]

/-- A denied request leaves the store unchanged: the downstream handler is
never reached. -/
theorem guardedUpdate_denied {user? : Option RPUser} {params : ReqParams}
    {body? : Option ReqBody} {handler : UserStore → UserStore}
    {store : UserStore} {c : String}
    (h : preventRoleModification user? params body? = .forbidden c) :
    guardedUpdate user? params body? handler store = store := by
  unfold guardedUpdate
  rw [h]

/-- C8: when the body holds neither a truthy `user_type` nor a truthy
`userType` (a present empty-string role value included), the middleware calls
`next()` for every actor, authenticated or not; the 401 response occurs only
when a truthy role value is present. -/
theorem preventRole_no_role_field :
    (∀ (user? : Option RPUser) (params : ReqParams) (body : ReqBody),
      jsTruthy (jsOrS body.user_type body.userType) = false →
      preventRoleModification user? params (some body) = .next) ∧
    (∀ (user? : Option RPUser) (params : ReqParams) (body : ReqBody),
      preventRoleModification user? params (some body) = .unauthorized →
      jsTruthy (jsOrS body.user_type body.userType) = true) := by
  constructor
  · intro user? params body h
    simp [preventRoleModification, h]
  · intro user? params body h
    by_cases ht : jsTruthy (jsOrS body.user_type body.userType) = true
    · exact ht
    · exfalso
      have hf : jsTruthy (jsOrS body.user_type body.userType) = false := by
        revert ht
        cases jsTruthy (jsOrS body.user_type body.userType) <;> simp
      rw [show preventRoleModification user? params (some body) = .next from by
        simp [preventRoleModification, hf]] at h
      exact RoleDecision.noConfusion h

/-- Witness for C8: an unauthenticated request with an empty-string role value
and a target id passes straight through without a 401. -/
theorem preventRole_no_role_field_witness :
    preventRoleModification none noParams (some ⟨some "", none, some "9", []⟩)
      = .next :=
  preventRole_no_role_field.1 none noParams ⟨some "", none, some "9", []⟩
    (by decide)

/-- C10: for an authenticated non-admin with a truthy role value and no target
id found in params or body, the request is treated as targeting the actor's
own record: denied `ROLE_MODIFICATION_FORBIDDEN` exactly when the value
differs from the actor's role, allowed when equal, and never denied
`ADMIN_REQUIRED`. -/
theorem preventRole_noTarget_self (u : RPUser) (params : ReqParams)
    (body : ReqBody) (v : String)
    (hadmin : u.user_type ≠ "admin")
    (hatt : jsOrS body.user_type body.userType = some v) (hv : v ≠ "")
    (htarget : jsTruthy (jsOrS (jsOrS params.id params.userId) body.userId)
      = false) :
    (v ≠ u.user_type →
      preventRoleModification (some u) params (some body)
        = .forbidden "ROLE_MODIFICATION_FORBIDDEN") ∧
    (v = u.user_type →
      preventRoleModification (some u) params (some body) = .next) ∧
    preventRoleModification (some u) params (some body)
      ≠ .forbidden "ADMIN_REQUIRED" := by
  have hchar := prm_nonAdmin_characterization u params body v hadmin hatt hv
  rw [htarget] at hchar
  simp only [Bool.not_false, Bool.true_or, Bool.true_and, Bool.false_and,
    Bool.false_eq_true, if_false] at hchar
  refine ⟨?_, ?_, ?_⟩
  · intro hne
    rw [hchar, if_pos (by simp only [bne_iff_ne, ne_eq]; exact hne)]
  · intro heq
    rw [hchar, if_neg (by simp [heq])]
  · rw [hchar]
    by_cases h : (v != u.user_type) = true
    · rw [if_pos h]
      simp
    · rw [if_neg h]
      simp

/-- Witness for C10: a differing role value with no target id is denied
`ROLE_MODIFICATION_FORBIDDEN`; an equal one is allowed. -/
theorem preventRole_noTarget_self_witness :
    preventRoleModification (some ⟨3, "traveler"⟩) noParams
        (some ⟨none, some "service_provider", none, []⟩)
      = .forbidden "ROLE_MODIFICATION_FORBIDDEN" ∧
    preventRoleModification (some ⟨3, "traveler"⟩) noParams
        (some ⟨none, some "traveler", none, []⟩) = .next :=
  ⟨(preventRole_noTarget_self ⟨3, "traveler"⟩ noParams
      ⟨none, some "service_provider", none, []⟩ "service_provider"
      (by decide) (by decide) (by decide) (by decide)).1 (by decide),
   (preventRole_noTarget_self ⟨3, "traveler"⟩ noParams
      ⟨none, some "traveler", none, []⟩ "traveler"
      (by decide) (by decide) (by decide) (by decide)).2.1 rfl⟩

/-- C1 counterexample: an authenticated non-admin actor with stored role
`traveler` sends a present role field whose (empty-string) value differs from
the stored role, yet the middleware calls `next()` instead of denying. -/
theorem roleDeny_empty_value_counterexample :
    ("" : String) ≠ "traveler" ∧
    preventRoleModification (some ⟨1, "traveler"⟩) noParams
        (some ⟨some "", none, none, []⟩) = .next ∧
    preventRoleModification (some ⟨1, "traveler"⟩) noParams
        (some ⟨some "", none, none, []⟩)
      ≠ .forbidden "ROLE_MODIFICATION_FORBIDDEN" := by decide

/-- C1 (amended to truthy role values): an authenticated non-admin sending a
non-empty role value is denied `ROLE_MODIFICATION_FORBIDDEN` when the target
resolves to their own record (no target id, or an id parsing to their own) and
the value differs from their stored role, and `ADMIN_REQUIRED` when the target
id parses to a different user's id whose stored role differs from the value;
in both cases the store is unchanged. -/
theorem roleDeny_nonAdmin (u : RPUser) (params : ReqParams) (body : ReqBody)
    (v : String) (store : UserStore) (handler : UserStore → UserStore)
    (hadmin : u.user_type ≠ "admin")
    (hatt : jsOrS body.user_type body.userType = some v) (hv : v ≠ "") :
    ((jsTruthy (jsOrS (jsOrS params.id params.userId) body.userId) = false ∨
      jsStrictEqInt
          (parseIntOpt (jsOrS (jsOrS params.id params.userId) body.userId))
          (some (Int.ofNat u.id)) = true) →
      v ≠ u.user_type →
      preventRoleModification (some u) params (some body)
        = .forbidden "ROLE_MODIFICATION_FORBIDDEN" ∧
      guardedUpdate (some u) params (some body) handler store = store) ∧
    (∀ (t : Nat) (r : String),
      jsTruthy (jsOrS (jsOrS params.id params.userId) body.userId) = true →
      parseIntOpt (jsOrS (jsOrS params.id params.userId) body.userId)
        = some (Int.ofNat t) →
      t ≠ u.id → lookupRole store t = some r → v ≠ r →
      preventRoleModification (some u) params (some body)
        = .forbidden "ADMIN_REQUIRED" ∧
      guardedUpdate (some u) params (some body) handler store = store) := by
  have hchar := prm_nonAdmin_characterization u params body v hadmin hatt hv
  constructor
  · intro hown hne
    have hcond : (!jsTruthy (jsOrS (jsOrS params.id params.userId) body.userId)
        || jsStrictEqInt
            (parseIntOpt (jsOrS (jsOrS params.id params.userId) body.userId))
            (some (Int.ofNat u.id))) = true := by
      rcases hown with h | h
      · rw [h]
        simp
      · rw [h]
        simp
    have hdec : preventRoleModification (some u) params (some body)
        = .forbidden "ROLE_MODIFICATION_FORBIDDEN" := by
      rw [hchar, if_pos]
      rw [hcond]
      simp only [Bool.true_and, bne_iff_ne, ne_eq]
      exact hne
    exact ⟨hdec, guardedUpdate_denied hdec⟩
  · intro t r htruthy hparse hne _hrole _hvr
    have hsame : jsStrictEqInt
        (parseIntOpt (jsOrS (jsOrS params.id params.userId) body.userId))
        (some (Int.ofNat u.id)) = false := by
      rw [hparse]
      simp only [jsStrictEqInt, beq_eq_false_iff_ne, ne_eq]
      exact fun h => hne (Int.ofNat.inj h)
    have hdec : preventRoleModification (some u) params (some body)
        = .forbidden "ADMIN_REQUIRED" := by
      rw [hchar, if_neg, if_pos]
      · rw [htruthy, hsame]
        simp
      · rw [htruthy, hsame]
        simp
    exact ⟨hdec, guardedUpdate_denied hdec⟩

/-- Witness for C1 (amended): a traveler setting their own role to
`service_provider` is denied and a one-row store survives a destructive
handler untouched. -/
theorem roleDeny_nonAdmin_witness :
    preventRoleModification (some ⟨1, "traveler"⟩) noParams
        (some ⟨some "service_provider", none, none, []⟩)
      = .forbidden "ROLE_MODIFICATION_FORBIDDEN" ∧
    guardedUpdate (some ⟨1, "traveler"⟩) noParams
        (some ⟨some "service_provider", none, none, []⟩) (fun _ => [])
        [(⟨1, "a@x.com", none, none, "traveler", "email"⟩ : StoredUser)]
      = [(⟨1, "a@x.com", none, none, "traveler", "email"⟩ : StoredUser)] :=
  (roleDeny_nonAdmin ⟨1, "traveler"⟩ noParams
      ⟨some "service_provider", none, none, []⟩ "service_provider"
      [⟨1, "a@x.com", none, none, "traveler", "email"⟩] (fun _ => [])
      (by decide) (by decide) (by decide)).1 (Or.inl (by decide)) (by decide)

/-- C2 counterexample: a non-admin actor requests for user 2 the exact role
user 2 already has stored (`traveler`), yet the middleware denies with
`ADMIN_REQUIRED` instead of allowing the no-op. -/
theorem roleNoop_otherUser_counterexample :
    lookupRole [(⟨2, "b@x.com", none, none, "traveler", "email"⟩ : StoredUser)] 2
      = some "traveler" ∧
    preventRoleModification (some ⟨1, "traveler"⟩) noParams
        (some ⟨some "traveler", none, some "2", []⟩)
      = .forbidden "ADMIN_REQUIRED" ∧
    preventRoleModification (some ⟨1, "traveler"⟩) noParams
        (some ⟨some "traveler", none, some "2", []⟩) ≠ .next := by decide

/-- C2 (amended): the no-op allowance holds only against the actor's own
record — a non-admin sending a truthy role value equal to their own stored
role is allowed when the target resolves to themselves (no target id, or an id
parsing to their own); a request whose target id parses to a different user's
id is denied `ADMIN_REQUIRED` even when the value equals that user's stored
role. -/
theorem roleNoop_semantics (u : RPUser) (params : ReqParams) (body : ReqBody)
    (v : String)
    (hadmin : u.user_type ≠ "admin")
    (hatt : jsOrS body.user_type body.userType = some v) (hv : v ≠ "") :
    (v = u.user_type →
      (jsTruthy (jsOrS (jsOrS params.id params.userId) body.userId) = false ∨
       jsStrictEqInt
          (parseIntOpt (jsOrS (jsOrS params.id params.userId) body.userId))
          (some (Int.ofNat u.id)) = true) →
      preventRoleModification (some u) params (some body) = .next) ∧
    (∀ t : Nat,
      jsTruthy (jsOrS (jsOrS params.id params.userId) body.userId) = true →
      parseIntOpt (jsOrS (jsOrS params.id params.userId) body.userId)
        = some (Int.ofNat t) →
      t ≠ u.id →
      ∀ store : UserStore, lookupRole store t = some v →
      preventRoleModification (some u) params (some body)
        = .forbidden "ADMIN_REQUIRED") := by
  have hchar := prm_nonAdmin_characterization u params body v hadmin hatt hv
  constructor
  · intro heq hown
    have hbne : (v != u.user_type) = false := by
      simp [heq]
    rw [hchar, if_neg, if_neg]
    · rcases hown with h | h
      · rw [h]
        simp
      · rw [h]
        simp
    · rw [hbne]
      simp
  · intro t htruthy hparse hne store _hrole
    have hsame : jsStrictEqInt
        (parseIntOpt (jsOrS (jsOrS params.id params.userId) body.userId))
        (some (Int.ofNat u.id)) = false := by
      rw [hparse]
      simp only [jsStrictEqInt, beq_eq_false_iff_ne, ne_eq]
      exact fun h => hne (Int.ofNat.inj h)
    rw [hchar, if_neg, if_pos]
    · rw [htruthy, hsame]
      simp
    · rw [htruthy, hsame]
      simp

/-- Witness for C2 (amended): an own-record no-op is allowed; the same no-op
aimed at user 2's record is denied `ADMIN_REQUIRED`. -/
theorem roleNoop_semantics_witness :
    preventRoleModification (some ⟨1, "traveler"⟩) noParams
        (some ⟨some "traveler", none, none, []⟩) = .next ∧
    preventRoleModification (some ⟨1, "traveler"⟩) noParams
        (some ⟨some "traveler", none, some "2", []⟩)
      = .forbidden "ADMIN_REQUIRED" :=
  ⟨(roleNoop_semantics ⟨1, "traveler"⟩ noParams
      ⟨some "traveler", none, none, []⟩ "traveler"
      (by decide) (by decide) (by decide)).1 rfl (Or.inl (by decide)),
   (roleNoop_semantics ⟨1, "traveler"⟩ noParams
      ⟨some "traveler", none, some "2", []⟩ "traveler"
      (by decide) (by decide) (by decide)).2 2 (by decide) (by decide)
      (by decide) [(⟨2, "b@x.com", none, none, "traveler", "email"⟩ : StoredUser)]
      (by decide)⟩

